import Mathlib

/-!
Shallow embedding of the Tellina task-interface core
(`website/models.py` and `website/views.py`).

Conventions of the embedding:
* Django model rows become Lean structures; `TextField`/`DateTimeField`
  values become `String`/`Nat` (timestamps as abstract ticks).
* The external docker/filesystem runtime is a `World`: the set of live
  container ids (runtime-assigned, modelled as allocation numbers) and
  the set of live virtual-filesystem names, plus the allocation counter.
* Fallible Python code (attribute errors, assertion errors, raised
  exceptions, out-of-range indexing) returns `Except String _`.
* Django persists field assignments only at `save()`; an operation that
  raises before reaching `save()` therefore leaves the stored row
  unchanged, which the embedding renders by returning `Except.error`
  without an updated record. Where a `save()` commits before a later
  statement raises, the committed row is returned alongside the error.
-/

namespace Tellina

/-- Training task ids (models.py line 23). -/
def TASK_TRAINING : List Nat := [21, 22]

/-- Scored task block I (models.py line 24). -/
def TASK_BLOCK_I : List Nat := [5, 10, 6, 9, 19, 1, 18, 17, 16]

/-- Scored task block II (models.py line 25). -/
def TASK_BLOCK_II : List Nat := [8, 7, 2, 14, 12, 4, 13, 15, 11]

/-- User model (models.py lines 41-58): a study participant. The class
docstring documents the group assignment as determining task-block order:
group1/group2 take block 1 first, group3/group4 take block 2 first. -/
structure User where
  access_code : String
  first_name : String
  last_name : String
  group : String
deriving Repr, DecidableEq

/-- Task model (models.py lines 61-86). These are exactly the declared
columns; note that there is no `goal` column — the goal data lives in
`goal_filesystem` and `stdout`. `duration` is in seconds. -/
structure Task where
  task_id : Nat
  type : String
  description : String
  file_attributes : String
  initial_filesystem : String
  goal_filesystem : String
  stdout : String
  duration : Nat
deriving Repr, DecidableEq

/-- Container model (models.py lines 90-103). The docker-assigned
container id is modelled as the allocation number handed out by the
runtime (`World.next_id`). -/
structure Container where
  container_id : Nat
  filesystem_name : String
  port : Nat
deriving Repr, DecidableEq

/-- State of the external docker/filesystem runtime: which container ids
and which virtual-filesystem roots currently exist, and the next id the
runtime will assign. -/
structure World where
  live_containers : List Nat
  live_filesystems : List String
  next_id : Nat
deriving Repr, DecidableEq

/-- Container.destroy (models.py lines 105-114): `docker rm -f` on the
container id and `delete_filesystem.bash` on the filesystem name. Both
are best-effort removals of an entry from the runtime state. The
`self.delete()` of the database row is commented out in the source, so
the `Container` record itself survives. -/
def Container.destroy (c : Container) (w : World) : World :=
  { w with
    live_containers := w.live_containers.filter (fun i => i != c.container_id),
    live_filesystems := w.live_filesystems.filter (fun f => f != c.filesystem_name) }

/-- create_container (models.py lines 116-207): makes the virtual
filesystem `/{filesystem_name}/home`, creates and starts a docker
container bind-mounting it, fixes ownership, applies the per-task
timestamp/user fixups (tasks 3, 7, 8 — file-attribute effects that do not
create or destroy sandboxes and are outside the `World` state), inspects
the published port and records a Container row. The port the runtime
reports is modelled by the container port 10411 declared in the source. -/
def create_container (filesystem_name : String) (_task : Task) (w : World) :
    Container × World :=
  let c : Container :=
    { container_id := w.next_id, filesystem_name := filesystem_name, port := 10411 }
  (c,
   { live_containers := w.next_id :: w.live_containers,
     live_filesystems := filesystem_name :: w.live_filesystems,
     next_id := w.next_id + 1 })

/-- StudySession model (models.py lines 210-257). Besides the declared
columns this carries `close_time`, a plain Python instance attribute
assigned by `close` (line 263; the declared column is `end_time`, which
`close` never writes). The model declares no container column or
attribute at all — although several views read `session.container`
(views.py lines 66, 83, 135, 180, 331) and user_login even passes a
container kwarg when creating the row (line 423), in Django the kwarg
raises TypeError and every such read raises AttributeError. -/
structure StudySession where
  user : User
  session_id : String
  creation_time : Nat
  end_time : Nat
  total_num_training_tasks : Nat
  total_num_tasks : Nat
  current_task_session_id : String
  num_tasks_completed : Nat
  filesystem_change_seen : Bool
  file_search_seen : Bool
  standard_output_seen : Bool
  status : String
  close_time : Option Nat
deriving Repr, DecidableEq

/-- Default of the total_num_tasks column (models.py lines 249-250). -/
def default_total_num_tasks : Nat := TASK_BLOCK_I.length + TASK_BLOCK_II.length

/-- Default of the total_num_training_tasks column (models.py 247-248). -/
def default_total_num_training_tasks : Nat := TASK_TRAINING.length

/-- StudySession.close (models.py lines 259-265): no-op unless the status
is running or paused; otherwise clears the current task session pointer,
assigns `close_time`, sets the status to the given reason and saves. It
performs no container or filesystem operation. -/
def StudySession.close (s : StudySession) (reason_for_close : String)
    (now : Nat) : StudySession :=
  if s.status = "running" ∨ s.status = "paused" then
    { s with
      current_task_session_id := "",
      close_time := some now,
      status := reason_for_close }
  else s

/-- StudySession.inc_num_tasks_completed (models.py lines 267-274). -/
def StudySession.inc_num_tasks_completed (s : StudySession) : StudySession :=
  let s1 := { s with num_tasks_completed := s.num_tasks_completed + 1 }
  if s1.status = "training" ∧
      s1.num_tasks_completed = s1.total_num_training_tasks then
    { s1 with num_tasks_completed := 0, status := "running" }
  else s1

/-- StudySession.switch_point (models.py lines 339-345): the number of
tasks in the first part of the study, by group. -/
def StudySession.switch_point (s : StudySession) : Nat :=
  if s.user.group = "group1" ∨ s.user.group = "group4" then
    TASK_BLOCK_I.length
  else
    TASK_BLOCK_II.length

/-- StudySession.stage (models.py lines 311-329). The development-mode
assert on block lengths (line 315) is skipped because WEBSITE_DEVELOP is
True; the assert on line 316 fires (AssertionError) when
num_tasks_completed exceeds total_num_tasks, and an unrecognized status
raises ValueError (line 328). -/
def StudySession.stage (s : StudySession) : Except String String :=
  if ¬ (s.num_tasks_completed ≤ s.total_num_tasks) then
    Except.error "AssertionError"
  else if s.status ∈ ["pre-consent", "pre-training", "training"] then
    Except.ok "O"
  else if s.status = "running" then
    if s.num_tasks_completed < s.switch_point then Except.ok "I"
    else if s.num_tasks_completed < s.total_num_tasks then Except.ok "II"
    else Except.ok "III"
  else
    Except.error "ValueError: wrong study session status"

/-- TaskSession model (models.py lines 355-387). The container column is
declared nullable with default None (line 382): a task session can exist
with no container bound. The owning study session is referenced by id;
operations that touch it take the StudySession value explicitly. -/
structure TaskSession where
  study_session_id : String
  study_session_stage : String
  session_id : String
  container : Option Container
  is_training : Bool
  task : Task
  start_time : Nat
  end_time : Nat
  status : String
deriving Repr, DecidableEq

/-- TaskSession.close (models.py lines 389-402). The seen-flag updates on
the study session each call save() themselves and therefore commit; the
task session row commits only at the final save() on line 402. With no
container bound, `self.container.destroy()` on line 400 raises
AttributeError after the (unpersisted) end_time assignment and before the
status assignment and save, so the stored task session row is unchanged:
the embedding returns the committed study session together with an error
carrying no task session update. -/
def TaskSession.close (ts : TaskSession) (ss : StudySession)
    (reason_for_close : String) (now : Nat) (w : World) :
    StudySession × Except String (TaskSession × World) :=
  let ss1 := if ts.task.type == "stdout" && ! ss.standard_output_seen then
    { ss with standard_output_seen := true } else ss
  let ss2 := if ts.task.type == "file_search" && ! ss1.file_search_seen then
    { ss1 with file_search_seen := true } else ss1
  let ss3 := if ts.task.type == "filesystem_change" && ! ss2.filesystem_change_seen then
    { ss2 with filesystem_change_seen := true } else ss2
  match ts.container with
  | none => (ss3, Except.error "AttributeError: container is None")
  | some c =>
    (ss3, Except.ok ({ ts with end_time := now, status := reason_for_close },
                     c.destroy w))

/-- TaskSession.destroy_container (models.py lines 411-413): destroys the
bound container and clears the binding; with no container bound the
attribute access raises AttributeError. -/
def TaskSession.destroy_container (ts : TaskSession) (w : World) :
    Except String (TaskSession × World) :=
  match ts.container with
  | none => Except.error "AttributeError: container is None"
  | some c => Except.ok ({ ts with container := none }, c.destroy w)

/-- TaskSession.create_new_container (models.py lines 404-409): if a
container is bound, destroy it first via destroy_container, then create a
fresh one named after the session id and bind it. -/
def TaskSession.create_new_container (ts : TaskSession) (w : World) :
    TaskSession × World :=
  let (ts1, w1) :=
    match ts.container with
    | some c => ({ ts with container := none }, c.destroy w)
    | none => (ts, w)
  let (c, w2) := create_container ts1.session_id ts1.task w1
  ({ ts1 with container := some c }, w2)

/-- TaskSession.page_tour (models.py lines 415-441): three sequential
checks on the task type, each firing only while the corresponding
type-seen flag of the study session is false; the init variant is chosen
exactly when the study session status is training and its completed-task
counter is zero. -/
def TaskSession.page_tour (ts : TaskSession) (ss : StudySession) :
    Option String :=
  let pt : Option String := none
  let pt := if ts.task.type == "stdout" && ! ss.standard_output_seen then
      (if ss.status == "training" && ss.num_tasks_completed == 0 then
        some "init_standard_output" else some "first_standard_output")
    else pt
  let pt := if ts.task.type == "file_search" && ! ss.file_search_seen then
      (if ss.status == "training" && ss.num_tasks_completed == 0 then
        some "init_file_search" else some "first_file_search")
    else pt
  let pt := if ts.task.type == "filesystem_change" && ! ss.filesystem_change_seen then
      (if ss.status == "training" && ss.num_tasks_completed == 0 then
        some "init_filesystem_change" else some "first_filesystem_change")
    else pt
  pt

/-! Views (`website/views.py`). -/

/-- pick_task (views.py lines 203-219): the id of the task served at a
given completed-task count. TASK_BLOCK_I is a non-None constant, so the
random branch is dead; indexing past both blocks raises IndexError. The
database fetch Task.objects.get(task_id=...) resolves the id against the
task catalog (pre-seeded data, outside the source); the scheduler
decision is the id itself. Note the function receives only the count —
no group or user reaches it. -/
def pick_task (num_tasks_completed : Nat) : Except String Nat :=
  if num_tasks_completed < TASK_BLOCK_I.length then
    match TASK_BLOCK_I.get? num_tasks_completed with
    | some i => Except.ok i
    | none => Except.error "IndexError"
  else
    match TASK_BLOCK_II.get? (num_tasks_completed - TASK_BLOCK_I.length) with
    | some i => Except.ok i
    | none => Except.error "IndexError"

/-- The task served to a user on the first task session that user_login
creates for a fresh study session (views.py line 434): the call is
pick_task(num_tasks_completed=0), taking nothing from the user record. -/
def first_task_served (_u : User) : Except String Nat :=
  pick_task 0

/-- The task session record created by go_to_next_task (views.py lines
144-150) and user_login (lines 431-437): only study session, session id,
task, start time and status are passed, so the nullable container column
and the other columns take their declared defaults. -/
def new_task_session (ss : StudySession) (tsid : String) (task : Task)
    (now : Nat) : TaskSession :=
  { study_session_id := ss.session_id
    study_session_stage := ""
    session_id := tsid
    container := none
    is_training := false
    task := task
    start_time := now
    end_time := 0
    status := "running" }

/-- close_study_session (views.py lines 323-331): the close path the
views actually invoke. No-op unless the status is running or paused;
otherwise it clears the pointer, sets the status and commits both with
save() — and then reads `session.container` (line 331), an attribute
StudySession does not declare, raising AttributeError. The committed row
survives the exception; no close timestamp is ever stamped and no
container is destroyed. The result pairs the row as stored with the
outcome: the untouched world on the no-op path, the propagated
AttributeError otherwise. -/
def close_study_session (s : StudySession) (reason_for_close : String)
    (w : World) : StudySession × Except String World :=
  if s.status = "running" ∨ s.status = "paused" then
    ({ s with current_task_session_id := "", status := reason_for_close },
     Except.error "AttributeError: StudySession has no attribute container")
  else (s, Except.ok w)

/-- The runtime world after a close_study_session request: unchanged
whenever the call raised before performing any destruction. -/
def world_after_close_study_session (s : StudySession)
    (reason_for_close : String) (w : World) : World :=
  match (close_study_session s reason_for_close w).2 with
  | Except.ok w2 => w2
  | Except.error _ => w

/-- The resumption scan of user_login (views.py lines 382-395): walk the
participant's study sessions that are in status running, in creation_time
order (the order_by of the queryset — the input list is assumed so
ordered). For each, look up its current task session in the repository:
if it exists and is running or paused the session is healthy; otherwise
(wrong status, or ObjectDoesNotExist) close_study_session is called with
closed_with_error — which commits the row update and then raises
AttributeError on the missing container attribute. That exception is not
the ObjectDoesNotExist that user_login catches, so it aborts the scan.
Returns the rows committed before any abort (in write order) together
with the outcome: the healthy sessions and the world, or the propagated
exception. -/
def scan_sessions (lookup : String → Option TaskSession) :
    List StudySession → World →
    List StudySession × Except String (List StudySession × World)
  | [], w => ([], Except.ok ([], w))
  | s :: rest, w =>
    match lookup s.current_task_session_id with
    | some ts =>
      if ts.status = "running" ∨ ts.status = "paused" then
        match scan_sessions lookup rest w with
        | (written, Except.error e) => (written, Except.error e)
        | (written, Except.ok (healthy, w2)) =>
          (written, Except.ok (s :: healthy, w2))
      else
        match close_study_session s "closed_with_error" w with
        | (s1, Except.error e) => ([s1], Except.error e)
        | (s1, Except.ok w1) =>
          match scan_sessions lookup rest w1 with
          | (written, r) => (s1 :: written, r)
    | none =>
      match close_study_session s "closed_with_error" w with
      | (s1, Except.error e) => ([s1], Except.error e)
      | (s1, Except.ok w1) =>
        match scan_sessions lookup rest w1 with
        | (written, r) => (s1 :: written, r)

/-- Closing of every session in a list with reason closed_with_error, as
done to existing_sessions[:-1] by user_login (views.py lines 398-400),
propagating the first exception after its committed row. -/
def close_stale : List StudySession → World →
    List StudySession × Except String World
  | [], w => ([], Except.ok w)
  | s :: rest, w =>
    match close_study_session s "closed_with_error" w with
    | (s1, Except.error e) => ([s1], Except.error e)
    | (s1, Except.ok w1) =>
      match close_stale rest w1 with
      | (written, r) => (s1 :: written, r)

/-- The existing-session branch of user_login (views.py lines 380-408):
scan the running sessions, then, when any healthy session remains, close
all but the last healthy one and answer with the last one as the
resumable session. Returns the closed-with-error rows committed (in
write order), and either the session served as resumable (none when a
fresh session would be registered instead) with the runtime world, or
the exception that crashed the request first. -/
def user_login_resume (lookup : String → Option TaskSession)
    (sessions : List StudySession) (w : World) :
    List StudySession × Except String (Option StudySession × World) :=
  match scan_sessions lookup sessions w with
  | (written, Except.error e) => (written, Except.error e)
  | (written, Except.ok (healthy, w1)) =>
    if healthy.isEmpty then (written, Except.ok (none, w1))
    else
      match close_stale healthy.dropLast w1 with
      | (written2, Except.error e) => (written ++ written2, Except.error e)
      | (written2, Except.ok w2) =>
        (written ++ written2, Except.ok (healthy.getLast?, w2))

/-- The `goal` attribute views.py reads off a task (lines 86, 258, 269).
The Task model (models.py lines 61-86) declares no such column — the
goal data is in `goal_filesystem` and `stdout` — so in Python this
attribute access raises AttributeError. -/
def Task.goal (_t : Task) : Except String String :=
  Except.error "AttributeError: Task has no attribute goal"

/-- Python substring membership `needle in hay` on character lists. -/
def char_list_contains (needle : List Char) : List Char → Bool
  | [] => needle.isEmpty
  | c :: rest => needle.isPrefixOf (c :: rest) || char_list_contains needle rest

/-- Python substring membership `needle in hay` on strings. -/
def str_contains (needle hay : String) : Bool :=
  char_list_contains needle.data hay.data

/-- The completion decision of on_command_execution (views.py lines
258-277) as a function of the task, the split command output lines, and
the `tag` field of the Delta produced by filesystem_diff (filesystem.py,
which is not part of the source under review; its tag is true exactly
when the diff found differences). Line 258 computes the goal — reading
`task.goal` for non-stdout tasks; line 269 checks `task.goal in
stdout_lines[-2]` for stdout tasks (an IndexError when there are fewer
than two lines); lines 271-277 dispatch on the labels
`filesearch`/`filesystem` and raise AttributeError for anything else. -/
def on_command_execution_check (task : Task) (stdout_lines : List String)
    (fs_diff_tag : Bool) : Except String Bool :=
  match (if task.type == "stdout" then Except.ok task.initial_filesystem
         else task.goal) with
  | Except.error e => Except.error e
  | Except.ok _goal =>
    if task.type == "stdout" then
      match task.goal with
      | Except.error e => Except.error e
      | Except.ok g =>
        if h : 2 ≤ stdout_lines.length then
          Except.ok (str_contains g (stdout_lines.get
            ⟨stdout_lines.length - 2, by omega⟩))
        else Except.error "IndexError"
    else if task.type == "filesearch" || task.type == "filesystem" then
      Except.ok (! fs_diff_tag)
    else
      Except.error "AttributeError: unrecognized task type"

/-- Modelled from the spec: remainingBlockLength(g), the length of the
block scheduled second for group g — the complement of the block whose
length StudySession.switch_point returns (models.py lines 339-345). The
source never serves a per-group second block (pick_task ignores the
group), so this derived quantity exists only in the spec's vocabulary. -/
def remaining_block_length (group : String) : Nat :=
  if group = "group1" ∨ group = "group4" then
    TASK_BLOCK_II.length
  else
    TASK_BLOCK_I.length

/-- The task session row stored after a close request: when close commits
(reaches its save) the updated row, otherwise — the close raised first —
the unchanged input row. -/
def saved_after_close (ts : TaskSession) (ss : StudySession)
    (reason_for_close : String) (now : Nat) (w : World) : TaskSession :=
  match (TaskSession.close ts ss reason_for_close now w).2 with
  | Except.ok p => p.1
  | Except.error _ => ts

/-! Concrete records used to instantiate the theorems below. -/

/-- A participant in group1 (block I first per the User docstring). -/
def alice : User :=
  { access_code := "alice-a", first_name := "Alice", last_name := "A",
    group := "group1" }

/-- A participant in group3 (block II first per the User docstring). -/
def carol : User :=
  { access_code := "carol-c", first_name := "Carol", last_name := "C",
    group := "group3" }

/-- A task record with the given id and type and empty payload fields. -/
def mk_task (id : Nat) (ty : String) : Task :=
  { task_id := id, type := ty, description := "", file_attributes := "",
    initial_filesystem := "", goal_filesystem := "", stdout := "",
    duration := 300 }

/-- A container provisioned for the study of alice, live in worldA. -/
def containerA : Container :=
  { container_id := 0, filesystem_name := "alice-a-study_session-1",
    port := 10411 }

/-- A runtime world in which containerA is the only live sandbox. -/
def worldA : World :=
  { live_containers := [0],
    live_filesystems := ["alice-a-study_session-1"], next_id := 1 }

/-- An empty runtime world. -/
def world0 : World :=
  { live_containers := [], live_filesystems := [], next_id := 0 }

/-- A running study session of alice; containerA is the sandbox of its
first task session, live in worldA. -/
def sessionA : StudySession :=
  { user := alice, session_id := "alice-a-study_session-1",
    creation_time := 0, end_time := 0, total_num_training_tasks := 2,
    total_num_tasks := 18,
    current_task_session_id := "alice-a-study_session-1/task-1",
    num_tasks_completed := 0, filesystem_change_seen := false,
    file_search_seen := false, standard_output_seen := false,
    status := "running", close_time := none }

/-- A training-stage study session that has completed one training task
and has not yet seen a file_search task. -/
def session_training_1 : StudySession :=
  { sessionA with status := "training", num_tasks_completed := 1 }

/-- A training-stage task session holding a file_search task, running
inside session_training_1: the first training occurrence of the
file_search type in that study session. -/
def ts_file_search : TaskSession :=
  { study_session_id := sessionA.session_id, study_session_stage := "O",
    session_id := "alice-a-study_session-1-training-task-2",
    container := none, is_training := true, task := mk_task 22 "file_search",
    start_time := 0, end_time := 0, status := "running" }

/-- A task session with no container bound, as go_to_next_task creates
them. -/
def ts_no_container : TaskSession :=
  new_task_session sessionA "alice-a-study_session-1/task-1"
    (mk_task 5 "file_search") 0

/-- A terminated task session (the user quit), used as the stale current
task session of an old study session. -/
def ts_dead : TaskSession :=
  { study_session_id := "s1", study_session_stage := "I",
    session_id := "s1/task-3", container := none, is_training := false,
    task := mk_task 6 "stdout", start_time := 0, end_time := 5,
    status := "quit" }

/-- A live (running) task session, the current task session of the later
study session in the resumption scenario. -/
def ts_live : TaskSession :=
  { study_session_id := "s2", study_session_stage := "I",
    session_id := "s2/task-5", container := none, is_training := false,
    task := mk_task 9 "stdout", start_time := 9, end_time := 0,
    status := "running" }

/-- Container provisioned for the earlier stale study session, still
live in worldS (nothing in the resumption path ever destroys it). -/
def containerS1 : Container :=
  { container_id := 3, filesystem_name := "s1", port := 10411 }

/-- Container provisioned for the later study session, live in worldS. -/
def containerS2 : Container :=
  { container_id := 4, filesystem_name := "s2", port := 10411 }

/-- The earlier stale running study session: its current task session
ts_dead is no longer running. -/
def sessionS1 : StudySession :=
  { sessionA with
    session_id := "s1", creation_time := 1,
    current_task_session_id := "s1/task-3" }

/-- The later running study session: its current task session ts_live is
still running. -/
def sessionS2 : StudySession :=
  { sessionA with
    session_id := "s2", creation_time := 2,
    current_task_session_id := "s2/task-5" }

/-- Repository lookup of task sessions by id for the resumption
scenario. -/
def lookup_resume : String → Option TaskSession := fun i =>
  if i = "s1/task-3" then some ts_dead
  else if i = "s2/task-5" then some ts_live
  else none

/-- The runtime world of the resumption scenario: both stale containers
live. -/
def worldS : World :=
  { live_containers := [3, 4], live_filesystems := ["s1", "s2"],
    next_id := 5 }

/-- A file_search task as the Task docstring declares types, with any
output and a diff reporting no differences — the failing input of C1. -/
def task_file_search : Task := mk_task 1 "file_search"

/-- A filesystem_change task as the Task docstring declares types. -/
def task_filesystem_change : Task := mk_task 2 "filesystem_change"

/-- A stdout task whose expected output field is set. -/
def task_stdout : Task := { mk_task 4 "stdout" with stdout := "done" }

/-! Helper lemmas. -/

/-- Removing an id that is not present leaves the live list unchanged. -/
theorem filter_bne_of_not_mem {α : Type} [BEq α] [LawfulBEq α] (a : α)
    (l : List α) (h : a ∉ l) : l.filter (fun x => x != a) = l := by
  induction l with
  | nil => rfl
  | cons b t ih =>
    have hb : ¬ b = a := fun hba => h (hba ▸ List.mem_cons_self b t)
    have ht : b :: t ≠ t ∧ a ∉ t := ⟨by simp, fun hm => h (List.mem_cons_of_mem b hm)⟩
    simp [List.filter_cons, bne_iff_ne, hb, ih ht.2]

/-- Removing an id twice is the same as removing it once. -/
theorem filter_bne_idem {α : Type} [BEq α] (a : α) (l : List α) :
    (l.filter (fun x => x != a)).filter (fun x => x != a)
      = l.filter (fun x => x != a) := by
  induction l with
  | nil => rfl
  | cons b t ih =>
    cases hb : b != a <;> simp [List.filter_cons, hb, ih]

/-! Claims. -/

/-- Claim C2 (code-bug evidence): the scheduler pick_task receives only
the completed-task count — the views call it with
num_tasks_completed alone (views.py lines 147, 434) — so the task served
is the same function for every participant: alice (group1, block order 0)
and carol (group3, block order 1) both receive task 5 (the head of
TASK_BLOCK_I) as their first scored task, and any two users receive
identical schedules, contradicting the group-dependent order the User
docstring documents. -/
theorem C2_first_scored_task_ignores_group :
    alice.group = "group1" ∧ carol.group = "group3" ∧
    first_task_served alice = Except.ok 5 ∧
    first_task_served carol = Except.ok 5 ∧
    ∀ u1 u2 : User, first_task_served u1 = first_task_served u2 :=
  ⟨rfl, rfl, rfl, rfl, fun _ _ => rfl⟩

/-- Claim C1 (code-bug evidence): the completion check of
on_command_execution raises for every task. For a task of declared type
file_search (or filesystem_change) — even with a diff reporting no
differences — the goal computation on line 258 reads the nonexistent
task.goal attribute and raises AttributeError; were a goal present, the
dispatch on line 271 compares against the labels filesearch/filesystem,
so the declared types would still fall into the unrecognized-type raise
on line 276. A stdout task reaches line 269 and raises on the same
missing attribute instead of substring-checking the last-but-one line. -/
theorem C1_completion_check_always_raises :
    on_command_execution_check task_file_search ["total 4", "done", "prompt"] false
      = Except.error "AttributeError: Task has no attribute goal" ∧
    on_command_execution_check task_filesystem_change ["total 4", "done", "prompt"] false
      = Except.error "AttributeError: Task has no attribute goal" ∧
    on_command_execution_check task_stdout ["total 4", "done", "prompt"] false
      = Except.error "AttributeError: Task has no attribute goal" ∧
    ∀ (t : Task) (lines : List String) (d : Bool),
      ∃ e, on_command_execution_check t lines d = Except.error e := by
  refine ⟨rfl, rfl, rfl, ?_⟩
  intro t lines d
  by_cases ht : t.type = "stdout" <;>
    simp [on_command_execution_check, Task.goal, ht]

/-- Claim C3 (counterexample): no close path destroys a sandbox, so the
claim fails on the concrete running session sessionA. The model method
StudySession.close stamps close_time, clears the pointer and sets the
status, but takes and returns no runtime state — it destroys nothing.
The view helper close_study_session commits the cleared pointer and the
new status and then raises AttributeError reading session.container, an
attribute StudySession does not declare: it stamps no close time and
destroys nothing either — containerA stays live in worldA after the
failed request. -/
theorem C3_counterexample :
    (sessionA.close "finished" 42).close_time = some 42 ∧
    (sessionA.close "finished" 42).status = "finished" ∧
    (sessionA.close "finished" 42).current_task_session_id = "" ∧
    close_study_session sessionA "finished" worldA =
      ({ sessionA with
         current_task_session_id := "", status := "finished" },
       Except.error "AttributeError: StudySession has no attribute container") ∧
    world_after_close_study_session sessionA "finished" worldA = worldA ∧
    worldA.live_containers = [containerA.container_id] := by
  refine ⟨rfl, rfl, rfl, rfl, rfl, rfl⟩

/-- Claim C3 (amended): both close paths are no-ops unless the status is
running or paused. When it is, the model method StudySession.close
clears the current task-session pointer, stamps the close time and sets
the status to the given reason — but destroys no sandbox. No
StudySession-level close path destroys one: the view helper
close_study_session (the path go_to_next_task and user_login invoke)
commits the cleared pointer and the new status and then raises
AttributeError reading session.container, a field StudySession does not
declare, so it stamps no close time and leaves the runtime world
untouched. -/
theorem C3_close_amended (s : StudySession) (r : String) (t : Nat)
    (w : World)
    (hrun : s.status = "running" ∨ s.status = "paused") :
    s.close r t = { s with
      current_task_session_id := "", close_time := some t, status := r } ∧
    close_study_session s r w =
      ({ s with current_task_session_id := "", status := r },
       Except.error "AttributeError: StudySession has no attribute container") ∧
    world_after_close_study_session s r w = w ∧
    ∀ s2 : StudySession, ¬ (s2.status = "running" ∨ s2.status = "paused") →
      StudySession.close s2 r t = s2 ∧
      close_study_session s2 r w = (s2, Except.ok w) := by
  have hcs : close_study_session s r w =
      ({ s with current_task_session_id := "", status := r },
       Except.error "AttributeError: StudySession has no attribute container") := by
    simp [close_study_session, hrun]
  refine ⟨by simp [StudySession.close, hrun], hcs, ?_, ?_⟩
  · simp [world_after_close_study_session, hcs]
  · intro s2 h2
    exact ⟨by simp [StudySession.close, h2], by simp [close_study_session, h2]⟩

/-- Claim C3 witness: the amended characterization applied to the
concrete running session sessionA in worldA. -/
theorem C3_close_amended_witness :
    sessionA.close "finished" 42 = { sessionA with
      current_task_session_id := "", close_time := some 42,
      status := "finished" } ∧
    close_study_session sessionA "finished" worldA =
      ({ sessionA with
         current_task_session_id := "", status := "finished" },
       Except.error "AttributeError: StudySession has no attribute container") ∧
    world_after_close_study_session sessionA "finished" worldA = worldA ∧
    ∀ s2 : StudySession, ¬ (s2.status = "running" ∨ s2.status = "paused") →
      StudySession.close s2 "finished" 42 = s2 ∧
      close_study_session s2 "finished" worldA = (s2, Except.ok worldA) :=
  C3_close_amended sessionA "finished" 42 worldA (Or.inl rfl)

/-- Claim C4: from any reachable training state (completed count below
the training total — the invariant training states satisfy, starting
from 0), inc_num_tasks_completed never leaves the counter above the
training total: reaching the total exactly resets the counter to 0 and
flips the status to running, and otherwise the increment is the only
change. -/
theorem C4_training_increment (s : StudySession)
    (hst : s.status = "training")
    (hlt : s.num_tasks_completed < s.total_num_training_tasks) :
    (s.inc_num_tasks_completed).num_tasks_completed
        ≤ s.total_num_training_tasks ∧
    (s.num_tasks_completed + 1 = s.total_num_training_tasks →
      (s.inc_num_tasks_completed).num_tasks_completed = 0 ∧
      (s.inc_num_tasks_completed).status = "running") ∧
    (s.num_tasks_completed + 1 ≠ s.total_num_training_tasks →
      s.inc_num_tasks_completed
        = { s with num_tasks_completed := s.num_tasks_completed + 1 }) := by
  by_cases he : s.num_tasks_completed + 1 = s.total_num_training_tasks
  · simp [StudySession.inc_num_tasks_completed, hst, he]
  · simp [StudySession.inc_num_tasks_completed, hst, he]
    omega

/-- Claim C4 witness: the training session session_training_1 has
completed 1 of 2 training tasks; the next completion resets the counter
to 0 and transitions the session to running. -/
theorem C4_training_increment_witness :
    session_training_1.inc_num_tasks_completed.num_tasks_completed = 0 ∧
    session_training_1.inc_num_tasks_completed.status = "running" :=
  (C4_training_increment session_training_1 rfl (by decide)).2.1 (by decide)

/-- Claim C5: under the invariant stage itself asserts (completed count
at most the total), the derived stage is O for the pre-consent,
pre-training and training statuses; while running it is I below the
switch point, II from the switch point up to (excluding) the total, and
III at the total; and computing it in status finished, paused or
closed_with_error raises the invalid-state ValueError. -/
theorem C5_stage_by_status (s : StudySession)
    (h : s.num_tasks_completed ≤ s.total_num_tasks) :
    (s.status ∈ ["pre-consent", "pre-training", "training"] →
      s.stage = Except.ok "O") ∧
    (s.status = "running" → s.num_tasks_completed < s.switch_point →
      s.stage = Except.ok "I") ∧
    (s.status = "running" → s.switch_point ≤ s.num_tasks_completed →
      s.num_tasks_completed < s.total_num_tasks → s.stage = Except.ok "II") ∧
    (s.status = "running" → s.switch_point ≤ s.num_tasks_completed →
      s.num_tasks_completed = s.total_num_tasks → s.stage = Except.ok "III") ∧
    (s.status ∈ ["finished", "paused", "closed_with_error"] →
      s.stage = Except.error "ValueError: wrong study session status") := by
  refine ⟨?_, ?_, ?_, ?_, ?_⟩
  · intro hm
    simp only [List.mem_cons, List.mem_singleton, List.not_mem_nil, or_false] at hm
    rcases hm with h1 | h1 | h1 <;> simp [StudySession.stage, h, h1]
  · intro hs hlt
    simp [StudySession.stage, h, hs, hlt]
  · intro hs hge hlt
    have h1 : ¬ s.num_tasks_completed < s.switch_point := by omega
    simp [StudySession.stage, h, hs, h1, hlt]
  · intro hs hge heq
    have h1 : ¬ s.num_tasks_completed < s.switch_point := by omega
    have h2 : ¬ s.num_tasks_completed < s.total_num_tasks := by omega
    simp [StudySession.stage, h, hs, h1, h2]
  · intro hm
    simp only [List.mem_cons, List.mem_singleton, List.not_mem_nil, or_false] at hm
    rcases hm with h1 | h1 | h1 <;> simp [StudySession.stage, h, h1]

/-- Claim C5 witness: the running session sessionA (group1, no task
completed) is in stage I, and the same session paused raises the
invalid-state ValueError. -/
theorem C5_stage_by_status_witness :
    sessionA.stage = Except.ok "I" ∧
    ({ sessionA with status := "paused" }).stage
      = Except.error "ValueError: wrong study session status" :=
  ⟨(C5_stage_by_status sessionA (by decide)).2.1 rfl (by decide),
   (C5_stage_by_status { sessionA with status := "paused" }
      (by decide)).2.2.2.2 (by decide)⟩

/-- Claim C8: for every session (hence every group), the switch point —
the length of the block scheduled first — plus the length of the
remaining block equals the default scored-task total of 18; the two
blocks are disjoint, their concatenation has no duplicate and has length
18, and pick_task enumerates exactly that concatenation over the 18
scored positions, so the scored task ids are covered exactly once. -/
theorem C8_blocks_partition (s : StudySession) :
    s.switch_point + remaining_block_length s.user.group
        = default_total_num_tasks ∧
    (∀ x ∈ TASK_BLOCK_I, x ∉ TASK_BLOCK_II) ∧
    (TASK_BLOCK_I ++ TASK_BLOCK_II).Nodup ∧
    (TASK_BLOCK_I ++ TASK_BLOCK_II).length = default_total_num_tasks ∧
    (List.range default_total_num_tasks).map pick_task
        = (TASK_BLOCK_I ++ TASK_BLOCK_II).map Except.ok := by
  refine ⟨?_, by decide, by decide, by decide, by rfl⟩
  by_cases hg : s.user.group = "group1" ∨ s.user.group = "group4"
  · simp [StudySession.switch_point, remaining_block_length, hg]
    decide
  · simp [StudySession.switch_point, remaining_block_length, hg]
    decide

/-- Claim C9 (counterexample): session_training_1 is a training-stage
study session that has completed one task and has never shown a
file_search task (its seen-flag is false), so the training task session
ts_file_search is the very first training task of type file_search in
that session — yet page_tour yields the first_file_search tour, not the
init_file_search tour the claim promises for the first training task of
a type. -/
theorem C9_counterexample :
    session_training_1.status = "training" ∧
    session_training_1.num_tasks_completed = 1 ∧
    session_training_1.file_search_seen = false ∧
    ts_file_search.task.type = "file_search" ∧
    ts_file_search.is_training = true ∧
    TaskSession.page_tour ts_file_search session_training_1
      = some "first_file_search" ∧
    TaskSession.page_tour ts_file_search session_training_1
      ≠ some "init_file_search" := by
  refine ⟨rfl, rfl, rfl, rfl, rfl, rfl, by decide⟩

/-- Claim C9 (amended): the tour decision per task type. While the study
session's seen-flag for the task's type is set, no tour is returned. With
the flag clear, the init tour for the type is returned only on the very
first task of the training phase (status training and zero tasks
completed overall — not the first training task of that type); every
other flag-clear occurrence, later in training or the first scored one,
returns the first tour for the type; a task of unrecognized type never
yields a tour. -/
theorem C9_page_tour_amended (ts : TaskSession) (ss : StudySession) :
    (ts.task.type = "stdout" → ss.standard_output_seen = true →
      ts.page_tour ss = none) ∧
    (ts.task.type = "file_search" → ss.file_search_seen = true →
      ts.page_tour ss = none) ∧
    (ts.task.type = "filesystem_change" → ss.filesystem_change_seen = true →
      ts.page_tour ss = none) ∧
    (ts.task.type = "stdout" → ss.standard_output_seen = false →
      ss.status = "training" → ss.num_tasks_completed = 0 →
      ts.page_tour ss = some "init_standard_output") ∧
    (ts.task.type = "file_search" → ss.file_search_seen = false →
      ss.status = "training" → ss.num_tasks_completed = 0 →
      ts.page_tour ss = some "init_file_search") ∧
    (ts.task.type = "filesystem_change" → ss.filesystem_change_seen = false →
      ss.status = "training" → ss.num_tasks_completed = 0 →
      ts.page_tour ss = some "init_filesystem_change") ∧
    (ts.task.type = "stdout" → ss.standard_output_seen = false →
      ¬ (ss.status = "training" ∧ ss.num_tasks_completed = 0) →
      ts.page_tour ss = some "first_standard_output") ∧
    (ts.task.type = "file_search" → ss.file_search_seen = false →
      ¬ (ss.status = "training" ∧ ss.num_tasks_completed = 0) →
      ts.page_tour ss = some "first_file_search") ∧
    (ts.task.type = "filesystem_change" → ss.filesystem_change_seen = false →
      ¬ (ss.status = "training" ∧ ss.num_tasks_completed = 0) →
      ts.page_tour ss = some "first_filesystem_change") ∧
    (ts.task.type ∉ ["stdout", "file_search", "filesystem_change"] →
      ts.page_tour ss = none) := by
  refine ⟨?_, ?_, ?_, ?_, ?_, ?_, ?_, ?_, ?_, ?_⟩
  · intro hty hseen; simp [TaskSession.page_tour, hty, hseen]
  · intro hty hseen; simp [TaskSession.page_tour, hty, hseen]
  · intro hty hseen; simp [TaskSession.page_tour, hty, hseen]
  · intro hty hseen htr h0; simp [TaskSession.page_tour, hty, hseen, htr, h0]
  · intro hty hseen htr h0; simp [TaskSession.page_tour, hty, hseen, htr, h0]
  · intro hty hseen htr h0; simp [TaskSession.page_tour, hty, hseen, htr, h0]
  · intro hty hseen hn
    simp [TaskSession.page_tour, hty, hseen]
    intro h1 h2; exact hn ⟨h1, h2⟩
  · intro hty hseen hn
    simp [TaskSession.page_tour, hty, hseen]
    intro h1 h2; exact hn ⟨h1, h2⟩
  · intro hty hseen hn
    simp [TaskSession.page_tour, hty, hseen]
    intro h1 h2; exact hn ⟨h1, h2⟩
  · intro hty
    simp only [List.mem_cons, List.mem_singleton, List.not_mem_nil, or_false,
      not_or] at hty
    simp [TaskSession.page_tour, hty.1, hty.2.1, hty.2.2]

/-- Claim C9 witness: the amended characterization applied to the
concrete first training occurrence of a file_search task after one
completed training task: the first tour, not the init one, is shown. -/
theorem C9_page_tour_amended_witness :
    TaskSession.page_tour ts_file_search session_training_1
      = some "first_file_search" :=
  (C9_page_tour_amended ts_file_search
    session_training_1).2.2.2.2.2.2.2.1 rfl rfl (by decide)

/-- Claim C10: TaskSession.close (and destroy_container) requires a
bound container. When the nullable container binding is empty — the
state in which the views create every task session — both raise
AttributeError on the missing container before the close commits, so the
stored row keeps its previous status and end time. -/
theorem C10_close_requires_container (ts : TaskSession) (ss : StudySession)
    (r : String) (now : Nat) (w : World) (h : ts.container = none) :
    (TaskSession.close ts ss r now w).2
        = Except.error "AttributeError: container is None" ∧
    TaskSession.destroy_container ts w
        = Except.error "AttributeError: container is None" ∧
    saved_after_close ts ss r now w = ts ∧
    (saved_after_close ts ss r now w).status = ts.status ∧
    (saved_after_close ts ss r now w).end_time = ts.end_time ∧
    ∀ (ss2 : StudySession) (tsid : String) (task : Task) (now2 : Nat),
      (new_task_session ss2 tsid task now2).container = none := by
  have h1 : (TaskSession.close ts ss r now w).2
      = Except.error "AttributeError: container is None" := by
    simp [TaskSession.close, h]
  have h2 : saved_after_close ts ss r now w = ts := by
    simp [saved_after_close, h1]
  exact ⟨h1, by simp [TaskSession.destroy_container, h], h2, by simp [h2],
    by simp [h2], fun _ _ _ _ => rfl⟩

/-- Claim C10 witness: closing ts_no_container — a task session exactly
as go_to_next_task creates them — fails with the attribute error and the
stored row keeps its running status. -/
theorem C10_close_requires_container_witness :
    (TaskSession.close ts_no_container sessionA "passed" 7 worldA).2
        = Except.error "AttributeError: container is None" ∧
    TaskSession.destroy_container ts_no_container worldA
        = Except.error "AttributeError: container is None" ∧
    saved_after_close ts_no_container sessionA "passed" 7 worldA
        = ts_no_container ∧
    (saved_after_close ts_no_container sessionA "passed" 7 worldA).status
        = ts_no_container.status ∧
    (saved_after_close ts_no_container sessionA "passed" 7 worldA).end_time
        = ts_no_container.end_time ∧
    ∀ (ss2 : StudySession) (tsid : String) (task : Task) (now2 : Nat),
      (new_task_session ss2 tsid task now2).container = none :=
  C10_close_requires_container ts_no_container sessionA "passed" 7 worldA rfl

/-- Claim C7: destroying a sandbox twice equals destroying it once, and
two consecutive create_new_container calls on a task session with no
prior binding (as the views create them) leave exactly one live sandbox:
the first call binds the freshly allocated container and adds it to the
live set; the second call destroys it before binding the next allocation,
so the final live set extends the original by the second container alone
and the first container is no longer live. Freshness of runtime
allocations (ids at or above the counter are not live yet) is the
runtime hygiene assumption. -/
theorem C7_sandbox_exclusive (c : Container) (ts : TaskSession) (w : World)
    (hnone : ts.container = none)
    (hfresh : ∀ n, w.next_id ≤ n → n ∉ w.live_containers) :
    Container.destroy c (Container.destroy c w) = Container.destroy c w ∧
    (ts.create_new_container w).1.container = some
      { container_id := w.next_id, filesystem_name := ts.session_id,
        port := 10411 } ∧
    (ts.create_new_container w).2.live_containers
        = w.next_id :: w.live_containers ∧
    ((ts.create_new_container w).1.create_new_container
        (ts.create_new_container w).2).1.container = some
      { container_id := w.next_id + 1, filesystem_name := ts.session_id,
        port := 10411 } ∧
    ((ts.create_new_container w).1.create_new_container
        (ts.create_new_container w).2).2.live_containers
        = (w.next_id + 1) :: w.live_containers ∧
    w.next_id ∉ ((ts.create_new_container w).1.create_new_container
        (ts.create_new_container w).2).2.live_containers := by
  have hidem : Container.destroy c (Container.destroy c w)
      = Container.destroy c w := by
    simp [Container.destroy, filter_bne_idem]
  have hcollapse : (w.next_id :: w.live_containers).filter
      (fun x => x != w.next_id) = w.live_containers := by
    rw [List.filter_cons]
    simp [filter_bne_of_not_mem w.next_id w.live_containers
      (hfresh w.next_id le_rfl)]
  refine ⟨hidem, ?_, ?_, ?_, ?_, ?_⟩
  · simp [TaskSession.create_new_container, create_container, hnone]
  · simp [TaskSession.create_new_container, create_container, hnone]
  · simp [TaskSession.create_new_container, create_container,
      Container.destroy, hnone]
  · simp [TaskSession.create_new_container, create_container,
      Container.destroy, hnone, hcollapse]
  · simp [TaskSession.create_new_container, create_container,
      Container.destroy, hnone, hcollapse]
    exact hfresh w.next_id le_rfl

/-- Claim C7 witness: from the empty runtime world, two consecutive
create calls on ts_no_container leave container 1 as the only live
sandbox, bound, with container 0 destroyed. -/
theorem C7_sandbox_exclusive_witness :
    Container.destroy containerA (Container.destroy containerA world0)
        = Container.destroy containerA world0 ∧
    (ts_no_container.create_new_container world0).1.container = some
      { container_id := world0.next_id,
        filesystem_name := ts_no_container.session_id, port := 10411 } ∧
    (ts_no_container.create_new_container world0).2.live_containers
        = world0.next_id :: world0.live_containers ∧
    ((ts_no_container.create_new_container world0).1.create_new_container
        (ts_no_container.create_new_container world0).2).1.container = some
      { container_id := world0.next_id + 1,
        filesystem_name := ts_no_container.session_id, port := 10411 } ∧
    ((ts_no_container.create_new_container world0).1.create_new_container
        (ts_no_container.create_new_container world0).2).2.live_containers
        = (world0.next_id + 1) :: world0.live_containers ∧
    world0.next_id ∉
      ((ts_no_container.create_new_container world0).1.create_new_container
        (ts_no_container.create_new_container world0).2).2.live_containers :=
  C7_sandbox_exclusive containerA ts_no_container world0 rfl
    (by intro n _ hmem; simp [world0] at hmem)

/-- Claim C6 (code-bug evidence): resuming a participant with two stale
running study sessions in creation order, the earlier one's current task
session absent from the repository or no longer running/paused, the
later one's still running or paused. The scan does commit the earlier
session's row with status closed_with_error (the save inside
close_study_session runs first), but then close_study_session raises
AttributeError reading session.container — a field StudySession does not
declare — and that exception is not the ObjectDoesNotExist user_login
catches, so the login request crashes: no container is destroyed and the
later session is never returned as resumable, in the missing-task-session
case exactly as in the stale-status case. -/
theorem C6_resume_scan_crashes (lookup : String → Option TaskSession)
    (s1 s2 : StudySession) (w : World) (ts2 : TaskSession)
    (h1 : s1.status = "running") (_h2 : s2.status = "running")
    (hbad : lookup s1.current_task_session_id = none ∨
      ∃ ts, lookup s1.current_task_session_id = some ts ∧
        ¬ (ts.status = "running" ∨ ts.status = "paused"))
    (_hgood : lookup s2.current_task_session_id = some ts2)
    (_hts2 : ts2.status = "running" ∨ ts2.status = "paused") :
    user_login_resume lookup [s1, s2] w =
      ([{ s1 with
          current_task_session_id := "", status := "closed_with_error" }],
       Except.error "AttributeError: StudySession has no attribute container") := by
  have hclose : close_study_session s1 "closed_with_error" w =
      ({ s1 with
        current_task_session_id := "", status := "closed_with_error" },
       Except.error "AttributeError: StudySession has no attribute container") := by
    simp [close_study_session, h1]
  rcases hbad with hb | ⟨ts, hts, hbadst⟩
  · simp [user_login_resume, scan_sessions, hb, hclose]
  · simp [user_login_resume, scan_sessions, hts, hbadst, hclose]

/-- Claim C6 witness: the concrete scenario — sessionS1 (created first,
current task session ts_dead has status quit) and sessionS2 (created
later, current task session ts_live still running) — commits sessionS1
as closed_with_error and then crashes with the AttributeError; sessionS2
is never served and containerS1 stays live. -/
theorem C6_resume_scan_crashes_witness :
    user_login_resume lookup_resume [sessionS1, sessionS2] worldS =
      ([{ sessionS1 with
          current_task_session_id := "", status := "closed_with_error" }],
       Except.error "AttributeError: StudySession has no attribute container") :=
  C6_resume_scan_crashes lookup_resume sessionS1 sessionS2 worldS ts_live
    rfl rfl (Or.inr ⟨ts_dead, rfl, by decide⟩) rfl (Or.inl rfl)

end Tellina
